import Mathlib

/-!
Shallow embedding of the spyrun event-to-execution pipeline
(src/command.rs, src/main.rs, src/spy.rs, src/settings.rs) and proofs of the
spec claims about it.

Modelling conventions:
* `Instant` is logical time, a `Nat`; `thread::sleep(d)` advances the clock by
  `d`.  `Duration` values are `Nat` milliseconds.  `Instant::duration_since`
  saturates at zero, as `Nat` subtraction does.
* The debounce/throttle `HashMap<String, Instant>` is an association list with
  insert-at-front (the latest binding shadows older ones); the mutex
  `HashSet<String>` is a `List String`.
* Rust `?` propagation is `RunResult.err`; a Rust `.unwrap()` failure is
  `RunResult.panic`.
* External collaborators (the Tera template engine, the filesystem, process
  spawning, the regex engine, the walkdir iterator) are oracle parameters, so
  the theorems quantify over their behaviour.  Concurrent interference with
  the shared cache during the debounce sleep is an explicit
  `interfere : DtCache → DtCache` parameter.
* Side effects are made observable: the scheduler outcome carries the final
  caches, the computed limit/mutex keys, and the trace of filesystem/process
  actions performed by `exec`.
-/

namespace Spyrun

/-- Outcome of running a piece of Rust code: `panic` for a failed `unwrap`,
`err` for an error propagated with `?`, `ok` for a normal value. -/
inductive RunResult (α : Type) where
  | panic : RunResult α
  | err : RunResult α
  | ok : α → RunResult α
deriving Repr, DecidableEq

/-- The debounce/throttle cache `HashMap<String, Instant>` (command.rs). -/
abbrev DtCache := List (String × Nat)

/-- `HashMap::get`: the most recent binding of a key. -/
def lookupDt (k : String) (c : DtCache) : Option Nat :=
  (c.find? (fun kv => kv.1 == k)).map (fun kv => kv.2)

/-- `HashMap::insert`: a new binding shadowing any older one. -/
def insertDt (k : String) (v : Nat) (c : DtCache) : DtCache :=
  (k, v) :: c

/-- Embeds `apply_debounce` (src/command.rs lines 63-88).  `now` is the
`Instant::now()` read at entry; the write of `now` under `limitkey`, the sleep,
and the re-read are modelled by applying `interfere` (the cache activity of
other workers during the sleep) to the stamped cache and re-reading it.  The
first component is `none` when the re-read `unwrap` panics (key absent). -/
def apply_debounce (limitkey : String) (threshold : Nat) (now : Nat)
    (dt_cache : DtCache) (interfere : DtCache → DtCache) :
    Option Bool × DtCache :=
  if threshold = 0 then (some false, dt_cache)
  else
    let cache1 := insertDt limitkey now dt_cache
    let cache2 := interfere cache1
    match lookupDt limitkey cache2 with
    | none => (none, cache2)
    | some executed =>
      if executed > now then (some true, cache2) else (some false, cache2)

/-- Embeds `apply_throttle` (src/command.rs lines 91-114).  Returns
(skipped, updated cache). -/
def apply_throttle (limitkey : String) (threshold : Nat) (now : Nat)
    (dt_cache : DtCache) : Bool × DtCache :=
  if threshold = 0 then (false, dt_cache)
  else
    match lookupDt limitkey dt_cache with
    | some executed =>
      if now - executed < threshold then (true, dt_cache)
      else (false, insertDt limitkey now dt_cache)
    | none => (false, insertDt limitkey now dt_cache)

/-- Embeds `acquire_mutex` (src/command.rs lines 117-132).  Returns
(acquired, updated mutex set). -/
def acquire_mutex (mutexkey : String) (mutex_cache : List String) :
    Bool × List String :=
  if mutexkey.isEmpty then (true, mutex_cache)
  else if mutex_cache.contains mutexkey then (false, mutex_cache)
  else (true, mutexkey :: mutex_cache)

/-- Embeds `release_mutex` (src/command.rs lines 135-143). -/
def release_mutex (mutexkey : String) (mutex_cache : List String) :
    List String :=
  if mutexkey.isEmpty then mutex_cache else mutex_cache.erase mutexkey

/-- Embeds the `CommandInfo` struct (src/command.rs lines 27-36); `PathBuf`
fields are strings. -/
structure CommandInfo where
  name : String
  event_path : String
  event_kind : String
  cmd : String
  arg : List String
  input : String
  output : String
deriving Repr, DecidableEq

/-- Rust `Debug` form of a `PathBuf`/`String`: quoted. -/
def debugString (s : String) : String := "\"" ++ s ++ "\""

/-- Rust `Debug` form of a `Vec<String>`. -/
def debugStringList (l : List String) : String :=
  "[" ++ String.intercalate ", " (l.map debugString) ++ "]"

/-- Embeds the `Display` impl for `CommandInfo` (src/command.rs lines 38-52),
the canonical string form used as the default rate-limit/mutex key. -/
def CommandInfo.display (ci : CommandInfo) : String :=
  "CommandInfo \x7b name: " ++ ci.name ++ ", event_path: " ++
    debugString ci.event_path ++ ", event_kind: " ++ ci.event_kind ++
    ", cmd: " ++ ci.cmd ++ ", arg: " ++ debugStringList ci.arg ++
    ", input: " ++ ci.input ++ ", output: " ++ ci.output ++ " \x7d"

/-- Embeds the `CommandResult` struct (src/command.rs lines 54-60); the
`ExitStatus` is its code, `PathBuf`s are strings. -/
structure CommandResult where
  status : Int
  stdout : String
  stderr : String
  skipped : Bool
deriving Repr, DecidableEq

/-- The skipped result built at src/command.rs lines 287-292, 298-303 and
318-323: default exit status and empty stdout/stderr paths. -/
def skipped_result : CommandResult :=
  { status := 0, stdout := "", stderr := "", skipped := true }

/-- A Tera `Context`: string-to-string bindings (later bindings shadow). -/
abbrev Ctx := List (String × String)

/-- `Context::insert`. -/
def insertCtx (k v : String) (c : Ctx) : Ctx := (k, v) :: c

/-- Oracles for the external collaborators used while materializing a command:
`render t ctx` is `new_tera(_, t)` plus `Tera::render` against `ctx` (an
`Except.error` covers both failure points), `fileCtx` is
`insert_file_context` (`none` = failure, which the source unwraps), and
`mkdir` is `create_dir_all`. -/
structure Env where
  render : String → Ctx → Except Unit String
  fileCtx : String → String → Ctx → Option Ctx
  mkdir : String → Except Unit Unit

/-- The arg-rendering loop of `render_command` (src/command.rs lines 156-163):
each arg template is rendered with `.unwrap()`, so the first failure panics
(`none`). -/
def renderArgs (env : Env) (context : Ctx) : List String → Option (List String)
  | [] => some []
  | s :: rest =>
    match env.render s context with
    | .error _ => none
    | .ok r =>
      match renderArgs env context rest with
      | none => none
      | some rs => some (r :: rs)

/-- Embeds `render_command` (src/command.rs lines 147-182).  Renders
`spy_name`, `cmd`, each `arg`, `input`, `output` in order, inserting each
rendered value into the context before the next render, then creates the
output directory.  Note the returned struct keeps the unrendered `name`,
`event_path` and `event_kind`, as the source does. -/
def render_command (env : Env) (cmd_info : CommandInfo) (context : Ctx) :
    RunResult CommandInfo :=
  match env.fileCtx cmd_info.event_path "event" context with
  | none => .panic
  | some ctx1 =>
    match env.render cmd_info.name ctx1 with
    | .error _ => .err
    | .ok spy_name =>
      let ctx2 := insertCtx "spy_name" spy_name ctx1
      match env.render cmd_info.cmd ctx2 with
      | .error _ => .err
      | .ok cmd =>
        let ctx3 := insertCtx "cmd" cmd ctx2
        match renderArgs env ctx3 cmd_info.arg with
        | none => .panic
        | some arg =>
          let ctx4 := insertCtx "arg" (String.intercalate " " arg) ctx3
          match env.render cmd_info.input ctx4 with
          | .error _ => .err
          | .ok input =>
            let ctx5 := insertCtx "input" input ctx4
            match env.render cmd_info.output ctx5 with
            | .error _ => .err
            | .ok output =>
              match env.mkdir output with
              | .error _ => .err
              | .ok _ =>
                .ok { name := cmd_info.name, event_path := cmd_info.event_path,
                      event_kind := cmd_info.event_kind, cmd := cmd,
                      arg := arg, input := input, output := output }

/-- Observable filesystem/process actions performed by `exec`. -/
inductive SysEvent where
  | mkdirEv : String → SysEvent
  | openEv : String → SysEvent
  | spawnEv : String → SysEvent
deriving Repr, DecidableEq

/-- Oracles for `exec`: the formatted `Local::now()` timestamp, append-create
file opening, directory creation, and spawning plus waiting on the child
(returning its exit status). -/
structure ExecEnv where
  nowStr : String
  openFile : String → Except Unit Unit
  mkdir : String → Except Unit Unit
  runCmd : String → List String → Except Unit Int

/-- `PathBuf::join` for a relative right-hand component. -/
def joinPath (a b : String) : String :=
  if a = "" then b else a ++ "/" ++ b

/-- Embeds `exec` (src/command.rs lines 186-225): ensure the output directory,
open the two log files append-create, spawn the child with redirected
stdout/stderr, wait, and return a non-skipped result carrying both paths.
The second component is the trace of performed actions. -/
def exec (eenv : ExecEnv) (cmd_info : CommandInfo) :
    RunResult CommandResult × List SysEvent :=
  let output_dir := cmd_info.output
  match eenv.mkdir output_dir with
  | .error _ => (.err, [])
  | .ok _ =>
    let stdout_path :=
      joinPath output_dir (cmd_info.name ++ "_stdout_" ++ eenv.nowStr ++ ".log")
    let stderr_path :=
      joinPath output_dir (cmd_info.name ++ "_stderr_" ++ eenv.nowStr ++ ".log")
    match eenv.openFile stdout_path with
    | .error _ => (.err, [.mkdirEv output_dir])
    | .ok _ =>
      match eenv.openFile stderr_path with
      | .error _ => (.err, [.mkdirEv output_dir, .openEv stdout_path])
      | .ok _ =>
        match eenv.runCmd cmd_info.cmd cmd_info.arg with
        | .error _ =>
          (.err, [.mkdirEv output_dir, .openEv stdout_path,
                  .openEv stderr_path, .spawnEv cmd_info.cmd])
        | .ok status =>
          (.ok { status := status, stdout := stdout_path,
                 stderr := stderr_path, skipped := false },
           [.mkdirEv output_dir, .openEv stdout_path,
            .openEv stderr_path, .spawnEv cmd_info.cmd])

/-- Embeds step 5 of `execute_command` (src/command.rs lines 306-324): try the
mutex; when acquired run `exec` and release on scope exit (the `defer!`),
otherwise return the skipped result.  Returns (result, mutex set, trace). -/
def mutex_stage (eenv : ExecEnv) (mutexkey : String) (cmd_info : CommandInfo)
    (mutex_cache : List String) :
    RunResult CommandResult × List String × List SysEvent :=
  let a := acquire_mutex mutexkey mutex_cache
  if a.1 then
    let r := exec eenv cmd_info
    (r.1, release_mutex mutexkey a.2, r.2)
  else
    (.ok skipped_result, a.2, [])

/-- Observable outcome of one `execute_command` invocation: its result, the
final shared caches, the computed limit and mutex keys (ghost copies of the
locals of src/command.rs lines 260-276; `none` when not yet computed), and
the trace of `exec` actions. -/
structure ExecOutcome where
  result : RunResult CommandResult
  dt : DtCache
  mutex : List String
  limitkey : Option String
  mutexkey : Option String
  trace : List SysEvent
deriving Repr, DecidableEq

/-- Embeds `execute_command` (src/command.rs lines 229-325).  `now` is the
clock at entry; the debounce sleep advances it by `debounce` before the
throttle stage reads its own `Instant::now()`.  The `&&` short-circuits at
lines 286 and 297 are the surrounding `if 0 < debounce` / `if 0 < throttle`
tests. -/
def execute_command (env : Env) (eenv : ExecEnv)
    (event_path event_kind name input output cmd : String) (arg : List String)
    (debounce throttle : Nat) (limitkey_tmpl mutexkey_tmpl : String)
    (context : Ctx) (now : Nat) (dt_cache : DtCache)
    (mutex_cache : List String) (interfere : DtCache → DtCache) : ExecOutcome :=
  match render_command env
      { name := name, event_path := event_path, event_kind := event_kind,
        cmd := cmd, arg := arg, input := input, output := output } context with
  | .panic =>
    { result := .panic, dt := dt_cache, mutex := mutex_cache,
      limitkey := none, mutexkey := none, trace := [] }
  | .err =>
    { result := .err, dt := dt_cache, mutex := mutex_cache,
      limitkey := none, mutexkey := none, trace := [] }
  | .ok cmd_info =>
    match (if limitkey_tmpl.isEmpty then Except.ok cmd_info.display
           else env.render limitkey_tmpl context) with
    | .error _ =>
      { result := .err, dt := dt_cache, mutex := mutex_cache,
        limitkey := none, mutexkey := none, trace := [] }
    | .ok limitkey =>
      let context1 := insertCtx "limitkey" limitkey context
      match (if mutexkey_tmpl.isEmpty then Except.ok cmd_info.display
             else env.render mutexkey_tmpl context1) with
      | .error _ =>
        { result := .err, dt := dt_cache, mutex := mutex_cache,
          limitkey := some limitkey, mutexkey := none, trace := [] }
      | .ok mutexkey =>
        let dstep : Option Bool × DtCache × Nat :=
          if 0 < debounce then
            let d := apply_debounce limitkey debounce now dt_cache interfere
            (d.1, d.2, now + debounce)
          else (some false, dt_cache, now)
        match dstep.1 with
        | none =>
          { result := .panic, dt := dstep.2.1, mutex := mutex_cache,
            limitkey := some limitkey, mutexkey := some mutexkey, trace := [] }
        | some true =>
          { result := .ok skipped_result, dt := dstep.2.1, mutex := mutex_cache,
            limitkey := some limitkey, mutexkey := some mutexkey, trace := [] }
        | some false =>
          let tstep : Bool × DtCache :=
            if 0 < throttle then apply_throttle limitkey throttle dstep.2.2 dstep.2.1
            else (false, dstep.2.1)
          if tstep.1 then
            { result := .ok skipped_result, dt := tstep.2, mutex := mutex_cache,
              limitkey := some limitkey, mutexkey := some mutexkey, trace := [] }
          else
            let m := mutex_stage eenv mutexkey cmd_info mutex_cache
            { result := m.1, dt := tstep.2, mutex := m.2.1,
              limitkey := some limitkey, mutexkey := some mutexkey,
              trace := m.2.2 }

/-- Embeds notify `EventKind` (the top-level constructors seen by
`event_kind_to_string`; sub-kinds are irrelevant to it). -/
inductive EventKind where
  | any | access | create | modify | remove | other
deriving Repr, DecidableEq

/-- Embeds `event_kind_to_string` (src/main.rs lines 72-80); `Any` and `Other`
fall into the catch-all arm. -/
def event_kind_to_string : EventKind → String
  | .create => "Create"
  | .remove => "Remove"
  | .modify => "Modify"
  | .access => "Access"
  | _ => "Other"

/-- Embeds a notify `Event`: kind plus paths (paths are strings; the lossy
string conversion is absorbed into the model). -/
structure Event where
  kind : EventKind
  paths : List String
deriving Repr, DecidableEq

/-- Embeds the `Pattern` struct (src/settings.rs lines 82-86). -/
structure Pattern where
  pattern : String
  cmd : String
  arg : List String
deriving Repr, DecidableEq

/-- Embeds the `Walk` struct (src/settings.rs lines 27-33). -/
structure Walk where
  min_depth : Option Nat
  max_depth : Option Nat
  follow_symlinks : Option Bool
  pattern : Option String
  delay : Option (Nat × Option Nat)
deriving Repr, DecidableEq

/-- Embeds the `Spy` struct (src/settings.rs lines 44-63); `recursive` is a
Bool, `poll` is the poll interval. -/
structure Spy where
  name : String
  events : Option (List String)
  input : Option String
  output : Option String
  recursive : Bool
  throttle : Option Nat
  debounce : Option Nat
  limitkey : Option String
  mutexkey : Option String
  patterns : Option (List Pattern)
  delay : Option (Nat × Option Nat)
  poll : Option Nat
  walk : Option Walk
deriving Repr, DecidableEq

/-- Embeds the `Default` impl for `Spy` (src/settings.rs lines 182-235). -/
def default_spy : Spy :=
  { name := "default",
    events := some ["Create", "Modify"],
    input := some "input",
    output := some "output",
    recursive := true,
    throttle := some 0,
    debounce := some 0,
    limitkey := some "",
    mutexkey := some "",
    patterns := some
      [ { pattern := "\\.ps1$", cmd := "powershell",
          arg := ["-NoProfile", "-ExecutionPolicy", "ByPass", "-File",
                  "\x7b\x7bevent_path\x7d\x7d"] },
        { pattern := "\\.cmd$", cmd := "\x7b\x7bevent_path\x7d\x7d", arg := [] },
        { pattern := "\\.bat$", cmd := "\x7b\x7bevent_path\x7d\x7d", arg := [] },
        { pattern := "\\.sh$", cmd := "bash",
          arg := ["-c", "\x7b\x7bevent_path\x7d\x7d"] } ],
    delay := none,
    poll := none,
    walk := none }

/-- The pattern-search loop of `find_pattern` (src/main.rs lines 93-96):
`Regex::new` is the oracle `rx` (`none` = compile failure, which the source
unwraps), and `find` stops at the first pattern whose regex matches. -/
def findFirstMatch (rx : String → Option (String → Bool)) (path : String) :
    List Pattern → RunResult (Option Pattern)
  | [] => .ok none
  | p :: rest =>
    match rx p.pattern with
    | none => .panic
    | some re =>
      if re path then .ok (some p) else findFirstMatch rx path rest

/-- Embeds `find_pattern` (src/main.rs lines 84-107): the event path is the
last element of `paths` (unwrapped), the spy `events` and `patterns` options
are unwrapped, the pattern search runs eagerly, and the match is returned
only when the mapped kind token is in the spy events list. -/
def find_pattern (rx : String → Option (String → Bool)) (event : Event)
    (spy : Spy) : RunResult (Option Pattern) :=
  let event_kind := event_kind_to_string event.kind
  match event.paths.getLast? with
  | none => .panic
  | some event_path =>
    match spy.events with
    | none => .panic
    | some evs =>
      let event_match := evs.contains event_kind
      match spy.patterns with
      | none => .panic
      | some pats =>
        match findFirstMatch rx event_path pats with
        | .panic => .panic
        | .err => .err
        | .ok match_pattern =>
          if event_match then .ok match_pattern else .ok none

/-- Embeds `string_to_event_kind` (src/spy.rs lines 30-38); unrecognized
strings fall through to `Modify`. -/
def string_to_event_kind : String → EventKind
  | "Create" => .create
  | "Remove" => .remove
  | "Modify" => .modify
  | "Access" => .access
  | _ => .modify

/-- Embeds the event-emitting core of `Spy::walk` (src/spy.rs lines 111-168).
`files` is the sequence of paths produced by the configured walkdir iterator
(thereby honoring the depth/symlink options), `rx` the regex oracle.  With no
walk config nothing is emitted; the synthesized kind comes from index 0 of
`events.unwrap_or(["Create", "Modify"])` (panic on an empty list); with a walk
pattern the files are filtered by the compiled regex (compile failure is
unwrapped).  One event is sent per remaining file, carrying just that path. -/
def walkEvents (rx : String → Option (String → Bool)) (spy : Spy)
    (files : List String) : RunResult (List Event) :=
  match spy.walk with
  | none => .ok []
  | some walk =>
    match spy.events.getD ["Create", "Modify"] with
    | [] => .panic
    | event_kind_str :: _ =>
      let event_kind := string_to_event_kind event_kind_str
      match walk.pattern with
      | some pattern =>
        match rx pattern with
        | none => .panic
        | some re =>
          .ok ((files.filter re).map
            (fun p => { kind := event_kind, paths := [p] }))
      | none =>
        .ok (files.map (fun p => { kind := event_kind, paths := [p] }))

/-- A rendering environment where every template renders to itself and the
filesystem operations succeed; used for concrete evaluations. -/
def idEnv : Env :=
  { render := fun t _ => Except.ok t,
    fileCtx := fun _ _ c => some c,
    mkdir := fun _ => Except.ok () }

/-- A rendering environment that fails exactly on the template `bad`. -/
def failRenderEnv (bad : String) : Env :=
  { render := fun t _ => if t == bad then Except.error () else Except.ok t,
    fileCtx := fun _ _ c => some c,
    mkdir := fun _ => Except.ok () }

/-- An execution environment where all filesystem and process operations
succeed and the child exits with status 0. -/
def okExecEnv : ExecEnv :=
  { nowStr := "20250101_000000000",
    openFile := fun _ => Except.ok (),
    mkdir := fun _ => Except.ok (),
    runCmd := fun _ _ => Except.ok 0 }

/-- A regex oracle under which no pattern compiles; used where the regex is
never consulted. -/
def noRegex : String → Option (String → Bool) := fun _ => none

/-- A regex oracle treating each pattern as a literal suffix test. -/
def suffixRegex : String → Option (String → Bool) :=
  fun pat => some (fun s => pat.data.isSuffixOf s.data)

/-- A sample rule whose pattern is the `.cmd` suffix. -/
def cmd_pattern : Pattern := { pattern := ".cmd", cmd := "x", arg := [] }

/-- A sample rule whose pattern is the `.ps1` suffix. -/
def ps1_pattern : Pattern :=
  { pattern := ".ps1", cmd := "powershell", arg := ["-File"] }

/-- A sample spy with both sample rules, in declared order. -/
def sample_spy : Spy :=
  { default_spy with
    name := "s",
    patterns := some [cmd_pattern, ps1_pattern] }

/-- A walk configuration with no filter pattern. -/
def sample_walk : Walk :=
  { min_depth := none, max_depth := none, follow_symlinks := none,
    pattern := none, delay := none }

/-- A spy with a walk config and no events list. -/
def walk_spy : Spy :=
  { default_spy with
    name := "walker",
    events := none,
    walk := some sample_walk }

/-- A spy with a walk config whose events list starts with Remove. -/
def remove_walk_spy : Spy :=
  { default_spy with
    name := "walker2",
    events := some ["Remove"],
    walk := some sample_walk }

theorem lookupDt_insert_self (k : String) (v : Nat) (c : DtCache) :
    lookupDt k (insertDt k v c) = some v := by
  simp [lookupDt, insertDt, List.find?]

theorem ite_empty_tmpl {α : Type} (a b : α) :
    (if ("" : String).isEmpty then a else b) = a := rfl

theorem apply_throttle_skip_cache (k : String) (th now : Nat) (cache : DtCache)
    (hne : th ≠ 0) :
    (apply_throttle k th now cache).1 = true →
    (apply_throttle k th now cache).2 = cache := by
  simp only [apply_throttle, if_neg hne]
  rcases lookupDt k cache with _ | last
  · simp
  · by_cases hlt : now - last < th <;> simp [hlt]

theorem apply_throttle_pass_cache (k : String) (th now : Nat) (cache : DtCache)
    (hne : th ≠ 0) :
    (apply_throttle k th now cache).1 = false →
    (apply_throttle k th now cache).2 = insertDt k now cache := by
  simp only [apply_throttle, if_neg hne]
  rcases lookupDt k cache with _ | last
  · simp
  · by_cases hlt : now - last < th <;> simp [hlt]

/-- Claim C3: with debounce enabled, the scheduler writes `now` into the cache
under the limit key, sleeps, re-reads the entry, and skips if and only if the
stored timestamp is strictly greater than the stamp it wrote; an unchanged
stamp proceeds.  The cache seen at the re-read is `interfere` applied to the
stamped cache, and `t` is the stored value found there.  The final conjunct
lifts the skip decision to `execute_command` with empty key templates. -/
theorem apply_debounce_spec (k : String) (th now : Nat) (cache : DtCache)
    (interfere : DtCache → DtCache) (t : Nat) (hth : 0 < th)
    (hlook : lookupDt k (interfere (insertDt k now cache)) = some t) :
    (apply_debounce k th now cache interfere
        = (some (decide (now < t)), interfere (insertDt k now cache)))
    ∧ ((apply_debounce k th now cache interfere).1 = some true ↔ now < t)
    ∧ (t = now → (apply_debounce k th now cache interfere).1 = some false)
    ∧ (∀ (env : Env) (eenv : ExecEnv) (ep ek n i o c : String)
        (a : List String) (thr : Nat) (ctx : Ctx) (mc : List String)
        (ci : CommandInfo),
        render_command env
          { name := n, event_path := ep, event_kind := ek, cmd := c,
            arg := a, input := i, output := o } ctx = .ok ci →
        (apply_debounce ci.display th now cache interfere).1 = some true →
        (execute_command env eenv ep ek n i o c a th thr "" "" ctx now cache
            mc interfere).result = .ok skipped_result) := by
  have hne : th ≠ 0 := Nat.pos_iff_ne_zero.mp hth
  have heq : apply_debounce k th now cache interfere
      = (some (decide (now < t)), interfere (insertDt k now cache)) := by
    simp only [apply_debounce, if_neg hne, hlook]
    by_cases h : now < t
    · simp [h, Nat.lt_irrefl]
    · simp [h, Nat.not_lt.mp h, show ¬ t > now from h]
  refine ⟨heq, ?_, ?_, ?_⟩
  · rw [heq]; simp
  · intro ht; rw [heq, ht]; simp
  · intro env eenv ep ek n i o c a thr ctx mc ci hci hskip
    simp only [execute_command, hci, ite_empty_tmpl, if_pos hth]
    simp [hskip]

/-- Claim C4: with throttle enabled, the throttle stage skips exactly when a
cache entry for the limit key exists with `now - last < throttle` (leaving the
cache unchanged); otherwise it writes `now` under the key and proceeds.  At
the `execute_command` level with `debounce = 0` and empty key templates, the
key used is the canonical display form of the rendered `CommandInfo`, a
throttle skip yields the skipped result with the cache untouched, and a
throttle pass stamps the cache and hands over to the mutex stage. -/
theorem apply_throttle_spec (k : String) (th now : Nat) (cache : DtCache)
    (hth : 0 < th) :
    ((apply_throttle k th now cache).1 = true
        ↔ ∃ last, lookupDt k cache = some last ∧ now - last < th)
    ∧ ((apply_throttle k th now cache).1 = true
        → (apply_throttle k th now cache).2 = cache)
    ∧ ((apply_throttle k th now cache).1 = false
        → (apply_throttle k th now cache).2 = insertDt k now cache)
    ∧ (∀ (env : Env) (eenv : ExecEnv) (ep ek n i o c : String)
        (a : List String) (ctx : Ctx) (now2 : Nat) (dt : DtCache)
        (mc : List String) (itf : DtCache → DtCache) (ci : CommandInfo),
        render_command env
          { name := n, event_path := ep, event_kind := ek, cmd := c,
            arg := a, input := i, output := o } ctx = .ok ci →
        ((execute_command env eenv ep ek n i o c a 0 th "" "" ctx now2 dt mc
            itf).limitkey = some ci.display
        ∧ ((apply_throttle ci.display th now2 dt).1 = true →
            (execute_command env eenv ep ek n i o c a 0 th "" "" ctx now2 dt
              mc itf).result = .ok skipped_result
            ∧ (execute_command env eenv ep ek n i o c a 0 th "" "" ctx now2 dt
              mc itf).dt = dt)
        ∧ ((apply_throttle ci.display th now2 dt).1 = false →
            (execute_command env eenv ep ek n i o c a 0 th "" "" ctx now2 dt
              mc itf).result = (mutex_stage eenv ci.display ci mc).1
            ∧ (execute_command env eenv ep ek n i o c a 0 th "" "" ctx now2 dt
              mc itf).dt = insertDt ci.display now2 dt))) := by
  have hne : th ≠ 0 := Nat.pos_iff_ne_zero.mp hth
  refine ⟨?_, ?_, ?_, ?_⟩
  · simp only [apply_throttle, if_neg hne]
    rcases hl : lookupDt k cache with _ | last
    · simp [hl]
    · by_cases hlt : now - last < th
      · simp [hl, hlt]
      · simp [hl, hlt]
  · simp only [apply_throttle, if_neg hne]
    rcases hl : lookupDt k cache with _ | last
    · simp
    · by_cases hlt : now - last < th <;> simp [hlt]
  · simp only [apply_throttle, if_neg hne]
    rcases hl : lookupDt k cache with _ | last
    · simp
    · by_cases hlt : now - last < th <;> simp [hlt]
  · intro env eenv ep ek n i o c a ctx now2 dt mc itf ci hci
    have hcache2 := apply_throttle_skip_cache ci.display th now2 dt hne
    have hcache3 := apply_throttle_pass_cache ci.display th now2 dt hne
    refine ⟨?_, ?_, ?_⟩
    · simp only [execute_command, hci, ite_empty_tmpl, Nat.lt_irrefl,
        if_false, if_pos hth]
      rcases ht : (apply_throttle ci.display th now2 dt).1 <;> simp [ht]
    · intro hskip
      simp only [execute_command, hci, ite_empty_tmpl, Nat.lt_irrefl,
        if_false, if_pos hth]
      simp [hskip, hcache2 hskip]
    · intro hpass
      simp only [execute_command, hci, ite_empty_tmpl, Nat.lt_irrefl,
        if_false, if_pos hth]
      simp [hpass, hcache3 hpass]

theorem apply_debounce_spec_witness :
    (apply_debounce "a" 1 5 [] (fun _ => [("a", 7)])).1 = some true :=
  ((apply_debounce_spec "a" 1 5 [] (fun _ => [("a", 7)]) 7 (by decide)
      (by decide)).2.1).mpr (by decide)

theorem apply_throttle_spec_witness :
    (apply_throttle "k" 10 3 [("k", 0)]).1 = true ∧
    (execute_command idEnv okExecEnv "p" "Create" "n" "i" "o" "c" [] 0 10 ""
        "" [] 3 [] [] id).limitkey
      = some (CommandInfo.display
          { name := "n", event_path := "p", event_kind := "Create",
            cmd := "c", arg := [], input := "i", output := "o" }) :=
  ⟨((apply_throttle_spec "k" 10 3 [("k", 0)] (by decide)).1).mpr
      ⟨0, by decide, by decide⟩,
   ((apply_throttle_spec "k" 10 3 [("k", 0)] (by decide)).2.2.2 idEnv okExecEnv
      "p" "Create" "n" "i" "o" "c" [] [] 3 [] [] id
      { name := "n", event_path := "p", event_kind := "Create", cmd := "c",
        arg := [], input := "i", output := "o" } (by rfl)).1⟩

/-- Claim C1 (the code violates it): with `debounce = 1` and `throttle = 10`,
a single invocation on empty caches survives the debounce check (nobody else
stamped the cache during the sleep), yet the throttle check is still applied
to it and skips it, because the throttle stage sees the stamp the debounce
stage itself wrote one time unit earlier.  The same invocation with
`throttle = 0` executes, showing the skip comes from the throttle layer.  The
claim (and the comment at src/command.rs line 295) says an invocation that
survives debounce proceeds to the mutex stage with no throttle check. -/
theorem execute_command_throttles_after_debounce_pass :
    (execute_command idEnv okExecEnv "p" "Create" "n" "i" "o" "c" [] 1 10 ""
        "" [] 0 [] [] id).result = RunResult.ok skipped_result ∧
    skipped_result.skipped = true ∧
    (execute_command idEnv okExecEnv "p" "Create" "n" "i" "o" "c" [] 1 0 ""
        "" [] 0 [] [] id).result
      = RunResult.ok
          { status := 0, stdout := "o/n_stdout_20250101_000000000.log",
            stderr := "o/n_stderr_20250101_000000000.log", skipped := false } :=
  ⟨rfl, rfl, rfl⟩

theorem display_ne_empty (ci : CommandInfo) : ci.display ≠ "" := by
  intro h
  have hl : ci.display.length = 0 := by rw [h]; rfl
  simp only [CommandInfo.display, String.length_append] at hl
  have h20 : ("CommandInfo \x7b name: " : String).length = 20 := rfl
  rw [h20] at hl
  omega

/-- Claim C2 (counterexample): an invocation whose mutexkey template is empty
is skipped through mutex contention when the mutex set already holds the
CommandInfo display key (first conjunct), while the identical invocation with
an empty mutex set executes (third conjunct). -/
theorem empty_mutexkey_template_contention_skips :
    (execute_command idEnv okExecEnv "p" "Create" "n" "i" "o" "c" [] 0 0 "" ""
        [] 0 []
        [CommandInfo.display
          { name := "n", event_path := "p", event_kind := "Create",
            cmd := "c", arg := [], input := "i", output := "o" }] id).result
      = RunResult.ok skipped_result ∧
    skipped_result.skipped = true ∧
    (execute_command idEnv okExecEnv "p" "Create" "n" "i" "o" "c" [] 0 0 "" ""
        [] 0 [] [] id).result
      = RunResult.ok
          { status := 0, stdout := "o/n_stdout_20250101_000000000.log",
            stderr := "o/n_stderr_20250101_000000000.log", skipped := false } :=
  ⟨rfl, rfl, rfl⟩

/-- Claim C2 (amended): the mutex layer is disabled exactly when the effective
mutex key string is empty (acquisition and release are then no-ops).  An empty
user-supplied mutexkey template does not disable it: the effective key
defaults to the CommandInfo display form, which is never the empty string, so
the key is inserted and contention can skip the invocation. -/
theorem mutex_disabled_iff_rendered_key_empty (k : String) (s : List String)
    (hk : k = "") :
    acquire_mutex k s = (true, s) ∧ release_mutex k s = s ∧
    (∀ (env : Env) (eenv : ExecEnv) (ep ek n i o c : String) (a : List String)
        (deb th : Nat) (ctx : Ctx) (now : Nat) (dt : DtCache)
        (mc : List String) (itf : DtCache → DtCache) (ci : CommandInfo),
        render_command env
          { name := n, event_path := ep, event_kind := ek, cmd := c, arg := a,
            input := i, output := o } ctx = .ok ci →
        (execute_command env eenv ep ek n i o c a deb th "" "" ctx now dt mc
            itf).mutexkey = some ci.display ∧ ci.display ≠ "") := by
  subst hk
  refine ⟨rfl, rfl, ?_⟩
  intro env eenv ep ek n i o c a deb th ctx now dt mc itf ci hci
  refine ⟨?_, display_ne_empty ci⟩
  simp only [execute_command, hci, ite_empty_tmpl]
  repeat' split
  all_goals rfl

theorem mutex_disabled_iff_rendered_key_empty_witness :
    acquire_mutex "" ["x"] = (true, ["x"]) ∧
    (execute_command idEnv okExecEnv "p" "Create" "n" "i" "o" "c" [] 0 0 "" ""
        [] 0 [] [] id).mutexkey
      = some (CommandInfo.display
          { name := "n", event_path := "p", event_kind := "Create",
            cmd := "c", arg := [], input := "i", output := "o" }) ∧
    CommandInfo.display
      { name := "n", event_path := "p", event_kind := "Create", cmd := "c",
        arg := [], input := "i", output := "o" } ≠ "" :=
  ⟨(mutex_disabled_iff_rendered_key_empty "" ["x"] rfl).1,
   ((mutex_disabled_iff_rendered_key_empty "" ["x"] rfl).2.2 idEnv okExecEnv
      "p" "Create" "n" "i" "o" "c" [] 0 0 [] 0 [] [] id
      { name := "n", event_path := "p", event_kind := "Create", cmd := "c",
        arg := [], input := "i", output := "o" } (by rfl)).1,
   ((mutex_disabled_iff_rendered_key_empty "" ["x"] rfl).2.2 idEnv okExecEnv
      "p" "Create" "n" "i" "o" "c" [] 0 0 [] 0 [] [] id
      { name := "n", event_path := "p", event_kind := "Create", cmd := "c",
        arg := [], input := "i", output := "o" } (by rfl)).2⟩

theorem mutex_stage_mutex (eenv : ExecEnv) (k : String) (ci : CommandInfo)
    (s : List String) : (mutex_stage eenv k ci s).2.1 = s := by
  by_cases hk : k.isEmpty
  · simp [mutex_stage, acquire_mutex, release_mutex, hk]
  · by_cases hc : k ∈ s
    · simp [mutex_stage, acquire_mutex, hk, hc]
    · simp [mutex_stage, acquire_mutex, release_mutex, hk, hc,
        List.erase_cons_head]

theorem execute_command_mutex_preserved (env : Env) (eenv : ExecEnv)
    (ep ek n i o c : String) (a : List String) (deb th : Nat)
    (lt mt : String) (ctx : Ctx) (now : Nat) (dt : DtCache)
    (mc : List String) (itf : DtCache → DtCache) :
    (execute_command env eenv ep ek n i o c a deb th lt mt ctx now dt mc
        itf).mutex = mc := by
  simp only [execute_command]
  repeat' split
  all_goals first | rfl | exact mutex_stage_mutex _ _ _ _

/-- Claim C5: acquiring a non-empty mutex key is a test-and-insert on the
mutex set: a held key skips without waiting and leaves the set unchanged, a
free key is inserted and a second acquisition of it then fails (mutual
exclusion).  The key is removed on every exit path of the protected region:
whatever `execute_command` does, the mutex set it leaves behind equals the one
it started from. -/
theorem acquire_release_mutex_spec (k : String) (s : List String)
    (hk : k ≠ "") :
    (s.contains k = true → acquire_mutex k s = (false, s)) ∧
    (s.contains k = false →
      acquire_mutex k s = (true, k :: s) ∧
      (acquire_mutex k (k :: s)).1 = false) ∧
    (∀ (env : Env) (eenv : ExecEnv) (ep ek n i o c : String)
        (a : List String) (deb th : Nat) (lt mt : String) (ctx : Ctx)
        (now : Nat) (dt : DtCache) (itf : DtCache → DtCache),
        (execute_command env eenv ep ek n i o c a deb th lt mt ctx now dt s
            itf).mutex = s) := by
  have hke : k.isEmpty = false := by
    rcases h : k.isEmpty with _ | _
    · rfl
    · exact absurd ((String.isEmpty_iff k).mp h) hk
  refine ⟨?_, ?_, ?_⟩
  · intro hc
    have hm : k ∈ s := by simpa using hc
    simp [acquire_mutex, hke, hm]
  · intro hc
    have hm : k ∉ s := by simpa using hc
    refine ⟨by simp [acquire_mutex, hke, hm], ?_⟩
    simp [acquire_mutex, hke, List.contains_cons]
  · intro env eenv ep ek n i o c a deb th lt mt ctx now dt itf
    exact execute_command_mutex_preserved env eenv ep ek n i o c a deb th lt
      mt ctx now dt s itf

theorem acquire_release_mutex_spec_witness :
    acquire_mutex "m" ["m"] = (false, ["m"]) ∧
    (execute_command idEnv okExecEnv "p" "Create" "n" "i" "o" "c" [] 0 0 ""
        "k" [] 0 [] ["m"] id).mutex = ["m"] :=
  ⟨(acquire_release_mutex_spec "m" ["m"] (by decide)).1 (by decide),
   (acquire_release_mutex_spec "m" ["m"] (by decide)).2.2 idEnv okExecEnv "p"
      "Create" "n" "i" "o" "c" [] 0 0 "" "k" [] 0 [] id⟩

theorem string_append_ne_right (s t : String) (ht : t ≠ "") : s ++ t ≠ "" := by
  intro h
  apply ht
  have hd : (s ++ t).data = [] := by rw [h]
  rw [String.data_append] at hd
  exact String.ext (List.append_eq_nil.mp hd).2

theorem joinPath_ne_empty (a b : String) (hb : b ≠ "") : joinPath a b ≠ "" := by
  unfold joinPath
  split
  · exact hb
  · exact string_append_ne_right (a ++ "/") b hb

theorem joinPath_prefix (a b : String) : ∃ rest, joinPath a b = a ++ rest := by
  unfold joinPath
  have hnil : ("" : String).data = [] := rfl
  split
  · refine ⟨b, ?_⟩
    rename_i h
    subst h
    apply String.ext
    simp [String.data_append, hnil]
  · refine ⟨"/" ++ b, ?_⟩
    apply String.ext
    simp [String.data_append]

theorem exec_ok_spec (eenv : ExecEnv) (ci : CommandInfo) (r : CommandResult)
    (h : (exec eenv ci).1 = .ok r) :
    r.skipped = false ∧
    r.stdout
      = joinPath ci.output (ci.name ++ "_stdout_" ++ eenv.nowStr ++ ".log") ∧
    r.stderr
      = joinPath ci.output (ci.name ++ "_stderr_" ++ eenv.nowStr ++ ".log") ∧
    (exec eenv ci).2
      = [.mkdirEv ci.output, .openEv r.stdout, .openEv r.stderr,
         .spawnEv ci.cmd] := by
  revert h
  simp only [exec]
  split
  · intro h; simp at h
  · split
    · intro h; simp at h
    · split
      · intro h; simp at h
      · split
        · intro h; simp at h
        · intro h
          simp only [RunResult.ok.injEq] at h
          subst h
          exact ⟨rfl, rfl, rfl, rfl⟩

theorem execute_command_result_cases (env : Env) (eenv : ExecEnv)
    (ep ek n i o c : String) (a : List String) (deb th : Nat)
    (lt mt : String) (ctx : Ctx) (now : Nat) (dt : DtCache)
    (mc : List String) (itf : DtCache → DtCache) :
    (execute_command env eenv ep ek n i o c a deb th lt mt ctx now dt mc
        itf).result = .panic ∨
    (execute_command env eenv ep ek n i o c a deb th lt mt ctx now dt mc
        itf).result = .err ∨
    ((execute_command env eenv ep ek n i o c a deb th lt mt ctx now dt mc
        itf).result = .ok skipped_result ∧
      (execute_command env eenv ep ek n i o c a deb th lt mt ctx now dt mc
        itf).trace = []) ∨
    (∃ ci, render_command env
        { name := n, event_path := ep, event_kind := ek, cmd := c, arg := a,
          input := i, output := o } ctx = .ok ci ∧
      (execute_command env eenv ep ek n i o c a deb th lt mt ctx now dt mc
        itf).result = (exec eenv ci).1 ∧
      (execute_command env eenv ep ek n i o c a deb th lt mt ctx now dt mc
        itf).trace = (exec eenv ci).2) := by
  simp only [execute_command, mutex_stage]
  repeat' split
  all_goals first
    | exact Or.inl rfl
    | exact Or.inr (Or.inl rfl)
    | exact Or.inr (Or.inr (Or.inl ⟨rfl, rfl⟩))
    | exact Or.inr (Or.inr (Or.inr ⟨_, by assumption, rfl, rfl⟩))

/-- Claim C6: every `CommandResult` returned by `execute_command` with
`skipped = true` has empty stdout and stderr paths; every one with
`skipped = false` has non-empty stdout and stderr paths that lie under the
materialized output directory and whose open (append-create) events occur in
the action trace strictly before the child-process spawn event. -/
theorem command_result_paths_spec (env : Env) (eenv : ExecEnv)
    (ep ek n i o c : String) (a : List String) (deb th : Nat)
    (lt mt : String) (ctx : Ctx) (now : Nat) (dt : DtCache)
    (mc : List String) (itf : DtCache → DtCache) (r : CommandResult)
    (hr : (execute_command env eenv ep ek n i o c a deb th lt mt ctx now dt
        mc itf).result = .ok r) :
    (r.skipped = true → r.stdout = "" ∧ r.stderr = "") ∧
    (r.skipped = false →
      r.stdout ≠ "" ∧ r.stderr ≠ "" ∧
      (∃ ci rest1 rest2,
        render_command env
          { name := n, event_path := ep, event_kind := ek, cmd := c, arg := a,
            input := i, output := o } ctx = .ok ci ∧
        r.stdout = ci.output ++ rest1 ∧ r.stderr = ci.output ++ rest2) ∧
      (∃ pre post cexe,
        (execute_command env eenv ep ek n i o c a deb th lt mt ctx now dt mc
          itf).trace = pre ++ SysEvent.spawnEv cexe :: post ∧
        SysEvent.openEv r.stdout ∈ pre ∧ SysEvent.openEv r.stderr ∈ pre)) := by
  rcases execute_command_result_cases env eenv ep ek n i o c a deb th lt mt
      ctx now dt mc itf with h | h | ⟨h1, h2⟩ | ⟨ci, hci, h1, h2⟩
  · rw [h] at hr; simp at hr
  · rw [h] at hr; simp at hr
  · rw [h1] at hr
    simp only [RunResult.ok.injEq] at hr
    subst hr
    constructor
    · intro _; exact ⟨rfl, rfl⟩
    · intro hsk; simp [skipped_result] at hsk
  · rw [h1] at hr
    obtain ⟨hsk, hso, hse, htr⟩ := exec_ok_spec eenv ci r hr
    constructor
    · intro ht; exact absurd (hsk.symm.trans ht) (by decide)
    · intro _
      refine ⟨?_, ?_, ?_, ?_⟩
      · rw [hso]
        exact joinPath_ne_empty _ _
          (string_append_ne_right _ ".log" (by decide))
      · rw [hse]
        exact joinPath_ne_empty _ _
          (string_append_ne_right _ ".log" (by decide))
      · obtain ⟨r1, hr1⟩ := joinPath_prefix ci.output
          (ci.name ++ "_stdout_" ++ eenv.nowStr ++ ".log")
        obtain ⟨r2, hr2⟩ := joinPath_prefix ci.output
          (ci.name ++ "_stderr_" ++ eenv.nowStr ++ ".log")
        exact ⟨ci, r1, r2, hci, by rw [hso, hr1], by rw [hse, hr2]⟩
      · refine ⟨[.mkdirEv ci.output, .openEv r.stdout, .openEv r.stderr],
          [], ci.cmd, ?_, by simp, by simp⟩
        rw [h2, htr]
        rfl

theorem command_result_paths_spec_witness :
    ("o/n_stdout_20250101_000000000.log" : String) ≠ "" ∧
    ("o/n_stderr_20250101_000000000.log" : String) ≠ "" ∧
    (∃ ci rest1 rest2,
      render_command idEnv
        { name := "n", event_path := "p", event_kind := "Create", cmd := "c",
          arg := [], input := "i", output := "o" } [] = .ok ci ∧
      ("o/n_stdout_20250101_000000000.log" : String) = ci.output ++ rest1 ∧
      ("o/n_stderr_20250101_000000000.log" : String) = ci.output ++ rest2) ∧
    (∃ pre post cexe,
      (execute_command idEnv okExecEnv "p" "Create" "n" "i" "o" "c" [] 0 0 ""
        "" [] 0 [] [] id).trace = pre ++ SysEvent.spawnEv cexe :: post ∧
      SysEvent.openEv "o/n_stdout_20250101_000000000.log" ∈ pre ∧
      SysEvent.openEv "o/n_stderr_20250101_000000000.log" ∈ pre) :=
  (command_result_paths_spec idEnv okExecEnv "p" "Create" "n" "i" "o" "c" []
      0 0 "" "" [] 0 [] [] id
      { status := 0, stdout := "o/n_stdout_20250101_000000000.log",
        stderr := "o/n_stderr_20250101_000000000.log", skipped := false }
      (by rfl)).2 (by rfl)

theorem findFirstMatch_eq_find (rx : String → Option (String → Bool))
    (path : String) (pats : List Pattern)
    (h : ∀ q ∈ pats, (rx q.pattern).isSome) :
    findFirstMatch rx path pats
      = .ok (pats.find?
          (fun q => ((rx q.pattern).getD (fun _ => false)) path)) := by
  induction pats with
  | nil => rfl
  | cons p rest ih =>
    have hp : (rx p.pattern).isSome := h p (by simp)
    rcases hq : rx p.pattern with _ | f
    · rw [hq] at hp; simp at hp
    · simp only [findFirstMatch, hq, List.find?, Option.getD_some]
      by_cases hm : f path
      · simp [hm]
      · simp only [hm, Bool.false_eq_true, if_false]
        rw [ih (fun q hq2 => h q (List.mem_cons_of_mem _ hq2))]

/-- Claim C7: under a spy with present events and patterns lists, an event
with at least one path, and compiling regexes, rule matching returns the first
pattern (in declared order) whose regex matches the last path, provided the
mapped kind token is a member of the spy events list, and `none` otherwise;
and the result is a pure function of
(event.kind, event.paths.last, spy.events, spy.patterns). -/
theorem find_pattern_spec (rx : String → Option (String → Bool)) (e : Event)
    (spy : Spy) (evs : List String) (pats : List Pattern) (path : String)
    (h1 : spy.events = some evs) (h2 : spy.patterns = some pats)
    (h3 : e.paths.getLast? = some path)
    (h4 : ∀ q ∈ pats, (rx q.pattern).isSome) :
    (find_pattern rx e spy
        = .ok (if evs.contains (event_kind_to_string e.kind)
            then pats.find?
              (fun q => ((rx q.pattern).getD (fun _ => false)) path)
            else none)) ∧
    (∀ pat, find_pattern rx e spy = .ok (some pat)
        ↔ (evs.contains (event_kind_to_string e.kind) = true ∧
          pats.find? (fun q => ((rx q.pattern).getD (fun _ => false)) path)
            = some pat)) ∧
    (∀ (e2 : Event) (spy2 : Spy), e2.kind = e.kind →
        e2.paths.getLast? = e.paths.getLast? → spy2.events = spy.events →
        spy2.patterns = spy.patterns →
        find_pattern rx e2 spy2 = find_pattern rx e spy) := by
  have hff := findFirstMatch_eq_find rx path pats h4
  have hmain : find_pattern rx e spy
      = .ok (if evs.contains (event_kind_to_string e.kind)
          then pats.find?
            (fun q => ((rx q.pattern).getD (fun _ => false)) path)
          else none) := by
    simp only [find_pattern, h3, h1, h2, hff]
    by_cases hc : event_kind_to_string e.kind ∈ evs
    · simp [hc]
    · simp [hc]
  refine ⟨hmain, ?_, ?_⟩
  · intro pat
    rw [hmain]
    by_cases hc : event_kind_to_string e.kind ∈ evs
    · simp [hc]
    · simp [hc]
  · intro e2 spy2 hk hl he hp
    simp only [find_pattern, hk, hl, he, hp]

theorem find_pattern_spec_witness :
    find_pattern suffixRegex
      { kind := EventKind.create, paths := ["a/b.ps1"] } sample_spy
      = .ok (some ps1_pattern) :=
  (find_pattern_spec suffixRegex
    { kind := EventKind.create, paths := ["a/b.ps1"] } sample_spy
    ["Create", "Modify"] [cmd_pattern, ps1_pattern] "a/b.ps1"
    (by rfl) (by rfl) rfl (fun q _ => rfl)).1

/-- Claim C8 (counterexample): on an event with an empty paths list, rule
matching panics (the unwrap of `paths.last()` fails); it does not return the
unmatched result `ok none`. -/
theorem find_pattern_empty_paths_cex :
    find_pattern noRegex { kind := EventKind.create, paths := [] } default_spy
      = RunResult.panic ∧
    (RunResult.panic : RunResult (Option Pattern)) ≠ RunResult.ok none :=
  ⟨rfl, fun h => RunResult.noConfusion h⟩

/-- Claim C8 (amended): for every event whose paths list is empty, rule
matching panics on the `paths.last().unwrap()` (crashing the dispatcher),
whatever the regex oracle, kind and spy, rather than treating the event as
unmatched. -/
theorem find_pattern_empty_paths_panics
    (rx : String → Option (String → Bool)) (k : EventKind) (spy : Spy) :
    find_pattern rx { kind := k, paths := [] } spy = RunResult.panic := rfl

/-- Claim C9 (counterexample): a render error in an arg template makes
`execute_command` panic (crashing the worker task) instead of returning an
error result, while the same render error in the cmd template is returned as
an error result. -/
theorem arg_render_error_panics_cex :
    (execute_command (failRenderEnv "BAD") okExecEnv "p" "Create" "n" "i" "o"
        "c" ["BAD"] 0 0 "" "" [] 0 [] [] id).result = RunResult.panic ∧
    (RunResult.panic : RunResult CommandResult) ≠ RunResult.err ∧
    (execute_command (failRenderEnv "BAD") okExecEnv "p" "Create" "n" "i" "o"
        "BAD" [] 0 0 "" "" [] 0 [] [] id).result = RunResult.err :=
  ⟨rfl, fun h => RunResult.noConfusion h, rfl⟩

/-- Claim C9 (amended): render errors in the spy_name, cmd, input and output
templates are per-event errors: `render_command` returns an error, which
`execute_command` propagates as an error result.  A render error in any arg
template instead panics (the per-arg `unwrap`), and `execute_command`
propagates the panic, crashing the worker. -/
theorem render_error_handling_spec (env : Env) (ci : CommandInfo)
    (ctx ctx1 : Ctx)
    (hf : env.fileCtx ci.event_path "event" ctx = some ctx1) :
    (env.render ci.name ctx1 = .error () → render_command env ci ctx = .err) ∧
    (∀ spy_name, env.render ci.name ctx1 = .ok spy_name →
      env.render ci.cmd (insertCtx "spy_name" spy_name ctx1) = .error () →
      render_command env ci ctx = .err) ∧
    (∀ spy_name cmd, env.render ci.name ctx1 = .ok spy_name →
      env.render ci.cmd (insertCtx "spy_name" spy_name ctx1) = .ok cmd →
      renderArgs env (insertCtx "cmd" cmd (insertCtx "spy_name" spy_name ctx1))
        ci.arg = none →
      render_command env ci ctx = .panic) ∧
    (∀ spy_name cmd arg, env.render ci.name ctx1 = .ok spy_name →
      env.render ci.cmd (insertCtx "spy_name" spy_name ctx1) = .ok cmd →
      renderArgs env (insertCtx "cmd" cmd (insertCtx "spy_name" spy_name ctx1))
        ci.arg = some arg →
      env.render ci.input
        (insertCtx "arg" (String.intercalate " " arg)
          (insertCtx "cmd" cmd (insertCtx "spy_name" spy_name ctx1)))
        = .error () →
      render_command env ci ctx = .err) ∧
    (∀ spy_name cmd arg input, env.render ci.name ctx1 = .ok spy_name →
      env.render ci.cmd (insertCtx "spy_name" spy_name ctx1) = .ok cmd →
      renderArgs env (insertCtx "cmd" cmd (insertCtx "spy_name" spy_name ctx1))
        ci.arg = some arg →
      env.render ci.input
        (insertCtx "arg" (String.intercalate " " arg)
          (insertCtx "cmd" cmd (insertCtx "spy_name" spy_name ctx1)))
        = .ok input →
      env.render ci.output
        (insertCtx "input" input
          (insertCtx "arg" (String.intercalate " " arg)
            (insertCtx "cmd" cmd (insertCtx "spy_name" spy_name ctx1))))
        = .error () →
      render_command env ci ctx = .err) ∧
    (∀ (eenv : ExecEnv) (deb th : Nat) (lt mt : String) (now : Nat)
        (dt : DtCache) (mc : List String) (itf : DtCache → DtCache),
      (render_command env ci ctx = .err →
        (execute_command env eenv ci.event_path ci.event_kind ci.name ci.input
          ci.output ci.cmd ci.arg deb th lt mt ctx now dt mc itf).result
          = .err) ∧
      (render_command env ci ctx = .panic →
        (execute_command env eenv ci.event_path ci.event_kind ci.name ci.input
          ci.output ci.cmd ci.arg deb th lt mt ctx now dt mc itf).result
          = .panic)) := by
  refine ⟨?_, ?_, ?_, ?_, ?_, ?_⟩
  · intro h
    simp only [render_command, hf, h]
  · intro s hn hc
    simp only [render_command, hf, hn, hc]
  · intro s c hn hc ha
    simp only [render_command, hf, hn, hc, ha]
  · intro s c a hn hc ha hi
    simp only [render_command, hf, hn, hc, ha, hi]
  · intro s c a inp hn hc ha hi ho
    simp only [render_command, hf, hn, hc, ha, hi, ho]
  · intro eenv deb th lt mt now dt mc itf
    constructor
    · intro h
      simp only [execute_command]
      have hrec : ({ name := ci.name, event_path := ci.event_path,
                     event_kind := ci.event_kind, cmd := ci.cmd,
                     arg := ci.arg, input := ci.input,
                     output := ci.output } : CommandInfo) = ci := rfl
      rw [hrec, h]
    · intro h
      simp only [execute_command]
      have hrec : ({ name := ci.name, event_path := ci.event_path,
                     event_kind := ci.event_kind, cmd := ci.cmd,
                     arg := ci.arg, input := ci.input,
                     output := ci.output } : CommandInfo) = ci := rfl
      rw [hrec, h]

theorem render_error_handling_spec_witness :
    render_command (failRenderEnv "BAD")
      { name := "n", event_path := "p", event_kind := "Create", cmd := "c",
        arg := ["BAD"], input := "i", output := "o" } [] = RunResult.panic ∧
    render_command (failRenderEnv "IN")
      { name := "n", event_path := "p", event_kind := "Create", cmd := "c",
        arg := [], input := "IN", output := "o" } [] = RunResult.err ∧
    render_command (failRenderEnv "OUT")
      { name := "n", event_path := "p", event_kind := "Create", cmd := "c",
        arg := [], input := "i", output := "OUT" } [] = RunResult.err ∧
    (execute_command (failRenderEnv "BAD") okExecEnv "p" "Create" "n" "i" "o"
        "c" ["BAD"] 0 0 "" "" [] 0 [] [] id).result = RunResult.panic :=
  ⟨(render_error_handling_spec (failRenderEnv "BAD")
      { name := "n", event_path := "p", event_kind := "Create", cmd := "c",
        arg := ["BAD"], input := "i", output := "o" } [] [] rfl).2.2.1
      "n" "c" rfl rfl rfl,
   (render_error_handling_spec (failRenderEnv "IN")
      { name := "n", event_path := "p", event_kind := "Create", cmd := "c",
        arg := [], input := "IN", output := "o" } [] [] rfl).2.2.2.1
      "n" "c" [] rfl rfl rfl rfl,
   (render_error_handling_spec (failRenderEnv "OUT")
      { name := "n", event_path := "p", event_kind := "Create", cmd := "c",
        arg := [], input := "i", output := "OUT" } [] [] rfl).2.2.2.2.1
      "n" "c" [] "i" rfl rfl rfl rfl rfl,
   ((render_error_handling_spec (failRenderEnv "BAD")
      { name := "n", event_path := "p", event_kind := "Create", cmd := "c",
        arg := ["BAD"], input := "i", output := "o" } [] [] rfl).2.2.2.2.2
      okExecEnv 0 0 "" "" 0 [] [] id).2
      ((render_error_handling_spec (failRenderEnv "BAD")
        { name := "n", event_path := "p", event_kind := "Create", cmd := "c",
          arg := ["BAD"], input := "i", output := "o" } [] [] rfl).2.2.1
        "n" "c" rfl rfl rfl)⟩

/-- Claim C10 (counterexample): for a spy with a Walk config and no events
list, the synthesized kind of the emitted events is Create, not Modify: the
source takes element 0 of the fallback list `["Create", "Modify"]`. -/
theorem walk_default_kind_cex :
    walkEvents noRegex walk_spy ["a.txt"]
      = RunResult.ok [{ kind := EventKind.create, paths := ["a.txt"] }] ∧
    EventKind.create ≠ EventKind.modify :=
  ⟨rfl, fun h => EventKind.noConfusion h⟩

/-- Claim C10 (amended): for a spy with a Walk config, the startup walk emits
one synthetic event per file surviving the optional regex filter, each
carrying just that path, and the synthesized kind of every emitted event is
the kind named by the first entry of `events.unwrap_or(["Create", "Modify"])`;
in particular, when the spy has no events list the kind defaults to Create. -/
theorem walk_events_spec (rx : String → Option (String → Bool)) (spy : Spy)
    (w : Walk) (files : List String) (k : String) (rest : List String)
    (hw : spy.walk = some w)
    (hk : spy.events.getD ["Create", "Modify"] = k :: rest)
    (hrx : ∀ pat, w.pattern = some pat → (rx pat).isSome) :
    walkEvents rx spy files
      = .ok ((match w.pattern with
          | none => files
          | some pat =>
            files.filter (fun p => ((rx pat).getD (fun _ => false)) p)).map
        (fun p => { kind := string_to_event_kind k, paths := [p] })) ∧
    (spy.events = none → string_to_event_kind k = EventKind.create) := by
  constructor
  · simp only [walkEvents, hw, hk]
    rcases hp : w.pattern with _ | pat
    · rfl
    · have hs := hrx pat hp
      rcases hq : rx pat with _ | f
      · rw [hq] at hs; simp at hs
      · simp [hq]
  · intro he
    rw [he] at hk
    simp only [Option.getD_none] at hk
    injection hk with h1 h2
    subst h1
    rfl

theorem walk_events_spec_witness :
    walkEvents noRegex remove_walk_spy ["f1", "f2"]
      = RunResult.ok
          [ { kind := EventKind.remove, paths := ["f1"] },
            { kind := EventKind.remove, paths := ["f2"] } ] :=
  (walk_events_spec noRegex remove_walk_spy sample_walk ["f1", "f2"] "Remove"
    [] rfl rfl (fun _ h => Option.noConfusion h)).1

end Spyrun
